import Mathlib

/-!
Verification of the conversation-engine core of the ChatBot repository
(dental patient simulation).  Python strings are modelled as `List Char`
(ASCII case semantics), Python `datetime` timestamps as natural numbers
counting seconds, Python floats as rationals, and raised exceptions as
explicit sum types.  Each definition is a shallow embedding of the
correspondingly named Python function.
-/

namespace ChatBot

/-- Python `str` is modelled as a list of characters. -/
abbrev Str := List Char

/-! ### Case-insensitive string scanning (model of `re` with `re.IGNORECASE`
on literal, `re.escape`d patterns, as used in `safety.py`). -/

/-- Case-insensitive character comparison (ASCII model of `re.IGNORECASE`). -/
def icEq (a b : Char) : Bool := a.toLower == b.toLower

/-- `icStarts p s` holds when the text `s` begins with the pattern `p`,
compared case-insensitively. -/
def icStarts : Str → Str → Bool
  | [], _ => true
  | _ :: _, [] => false
  | a :: ps, c :: cs => icEq a c && icStarts ps cs

/-- `icContains p s`: the pattern `p` occurs somewhere in `s`,
case-insensitively (model of `re.search` on an escaped literal). -/
def icContains (p : Str) : Str → Bool
  | [] => icStarts p []
  | c :: cs => icStarts p (c :: cs) || icContains p cs

/-- The three-character ellipsis `"..."` used as the replacement marker. -/
def dots3 : Str := ['.', '.', '.']

/-- Fuelled left-to-right scan replacing every non-overlapping
case-insensitive occurrence of `p` by `"..."` (model of
`re.sub` on an escaped literal with `re.IGNORECASE`).  The fuel is an upper
bound on the text length, consumed one unit per examined position. -/
def icReplaceGo (p : Str) : Nat → Str → Str
  | _, [] => []
  | 0, c :: cs => c :: cs
  | fuel + 1, c :: cs =>
    if icStarts p (c :: cs) then
      dots3 ++ icReplaceGo p fuel (cs.drop (p.length - 1))
    else
      c :: icReplaceGo p fuel cs

/-- Replace every case-insensitive occurrence of `p` in `s` by `"..."`.
The blocked phrases are never empty; the empty-pattern guard only keeps the
function total. -/
def icReplace (p s : Str) : Str := if p.isEmpty then s else icReplaceGo p s.length s

/-- `p` has no character that is case-insensitively a dot (true of every
blocked phrase); replacement markers can therefore never assemble into `p`. -/
def dotFree (p : Str) : Bool := p.all (fun c => !(icEq c '.'))

/-! ### Python string helpers used by `safety.py` -/

/-- Python whitespace characters recognised by `str.strip` / `str.split`
(ASCII model). -/
def isPyWs (c : Char) : Bool :=
  c = ' ' || c = '\t' || c = '\n' || c = '\r' || c = '\x0b' || c = '\x0c'

/-- Leading-whitespace removal. -/
def stripFront (s : Str) : Str := s.dropWhile isPyWs

/-- Trailing-whitespace removal. -/
def stripBack (s : Str) : Str := (s.reverse.dropWhile isPyWs).reverse

/-- Model of Python `str.strip()`. -/
def pyStrip (s : Str) : Str := stripBack (stripFront s)

/-- Model of Python `s.rsplit(' ', 1)[0]`: everything before the last space
character, or the whole string when it has no space. -/
def rsplitHead (s : Str) : Str :=
  match s.reverse.dropWhile (fun c => c != ' ') with
  | [] => s
  | _ :: t => t.reverse

/-- Accumulator loop behind `pySplit`. -/
def pySplitGo : Str → Str → List Str
  | [], acc => if acc.isEmpty then [] else [acc.reverse]
  | c :: cs, acc =>
    if isPyWs c then
      (if acc.isEmpty then pySplitGo cs [] else acc.reverse :: pySplitGo cs [])
    else pySplitGo cs (c :: acc)

/-- Model of Python `str.split()` (split on whitespace runs, dropping
empty fields). -/
def pySplit (s : Str) : List Str := pySplitGo s []

/-- Exact (case-sensitive) starts-with test. -/
def sStarts : Str → Str → Bool
  | [], _ => true
  | _ :: _, [] => false
  | a :: ps, c :: cs => (a = c) && sStarts ps cs

/-- Exact substring test, used to state "the prompt contains ...". -/
def containsB (n : Str) : Str → Bool
  | [] => sStarts n []
  | c :: cs => sStarts n (c :: cs) || containsB n cs

/-! ### `config.py` -/

/-- Bounds from `GenerationConfig` (class-level constants). -/
def MIN_TOKENS : Int := 10
def MAX_TOKENS : Int := 500
def MIN_TEMPERATURE : ℚ := 0
def MAX_TEMPERATURE : ℚ := 3 / 2
def MIN_TOP_P : ℚ := 0
def MAX_TOP_P : ℚ := 1
def MIN_REPETITION_PENALTY : ℚ := 1
def MAX_REPETITION_PENALTY : ℚ := 2

/-- `GenerationConfig`: validated generation parameters.  Python ints are
`Int`, Python floats are modelled as rationals (all bounds are exactly
representable doubles, so the comparisons agree). -/
structure GenerationConfig where
  max_new_tokens : Int
  temperature : ℚ
  top_p : ℚ
  repetition_penalty : ℚ
deriving DecidableEq, Repr

/-- Which range check of `GenerationConfig.validate` raised `ValueError`
(the checks run in source order; the first failure raises). -/
inductive ConfigError where
  | tokens
  | temperature
  | topP
  | repPenalty
deriving DecidableEq, Repr

/-- `GenerationConfig.validate`: raises on the first out-of-range field. -/
def GenerationConfig.validate (c : GenerationConfig) : Except ConfigError Unit :=
  if ¬ (MIN_TOKENS ≤ c.max_new_tokens ∧ c.max_new_tokens ≤ MAX_TOKENS) then
    .error .tokens
  else if ¬ (MIN_TEMPERATURE ≤ c.temperature ∧ c.temperature ≤ MAX_TEMPERATURE) then
    .error .temperature
  else if ¬ (MIN_TOP_P ≤ c.top_p ∧ c.top_p ≤ MAX_TOP_P) then
    .error .topP
  else if ¬ (MIN_REPETITION_PENALTY ≤ c.repetition_penalty ∧
      c.repetition_penalty ≤ MAX_REPETITION_PENALTY) then
    .error .repPenalty
  else .ok ()

/-- Constructing a `GenerationConfig`: `__post_init__` calls `validate`, so
an out-of-range record is never produced and values are never clamped. -/
def mkGenerationConfig (mnt : Int) (t p r : ℚ) : Except ConfigError GenerationConfig :=
  let c : GenerationConfig := ⟨mnt, t, p, r⟩
  (c.validate).map (fun _ => c)

/-- The configured blocked phrases of `SafetyConfig.blocked_phrases`,
in source order. -/
def defaultBlockedPhrases : List Str :=
  [("I diagnose").data,
   ("My diagnosis is").data,
   ("You have").data,
   ("The diagnosis is").data,
   ("I prescribe").data,
   ("Take this medication").data,
   ("You should take").data,
   ("I recommend you take").data]

/-- `SafetyConfig` from `config.py`. -/
structure SafetyConfig where
  max_conversation_turns : Nat
  max_response_length : Nat
  sanitize_output : Bool
  blocked_phrases : List Str
  safety_disclaimer : Str

/-- `DEFAULT_SAFETY_CONFIG`. -/
def DEFAULT_SAFETY_CONFIG : SafetyConfig :=
  { max_conversation_turns := 50
    max_response_length := 1000
    sanitize_output := true
    blocked_phrases := defaultBlockedPhrases
    safety_disclaimer :=
      ("Note: This is a simulated patient for training purposes only. Do not use for actual medical diagnosis.").data }

/-! ### `safety.py` -/

/-- Warnings collected by `OutputSanitizer.sanitize`.  The Python code
formats them as strings; the model keeps their information content. -/
inductive SafetyWarning where
  | removedBlocked (count : Nat)
  | truncated (fromLen toLen : Nat)
deriving DecidableEq, Repr

/-- `SafetyCheckResult` dataclass. -/
structure SafetyCheckResult where
  is_safe : Bool
  original_text : Str
  sanitized_text : Str
  warnings : List SafetyWarning
  blocked_phrases_found : List Str

/-- `OutputSanitizer._remove_blocked_phrases`: for each configured phrase in
order, if it occurs (case-insensitively) record it and replace every
occurrence by `"..."`. -/
def remove_blocked_phrases (phrases : List Str) (text : Str) : Str × List Str :=
  match phrases with
  | [] => (text, [])
  | p :: ps =>
    if icContains p text then
      let r := remove_blocked_phrases ps (icReplace p text)
      (r.1, p :: r.2)
    else
      remove_blocked_phrases ps text

/-- `OutputSanitizer.sanitize`. -/
def sanitize (cfg : SafetyConfig) (text : Str) : SafetyCheckResult :=
  let pr := if cfg.sanitize_output then remove_blocked_phrases cfg.blocked_phrases text
            else (text, [])
  let warnings0 : List SafetyWarning :=
    if pr.2.isEmpty then [] else [.removedBlocked pr.2.length]
  let tr : Str × List SafetyWarning :=
    if cfg.max_response_length < pr.1.length then
      let s2 := rsplitHead (pr.1.take cfg.max_response_length) ++ dots3
      (s2, warnings0 ++ [.truncated text.length s2.length])
    else (pr.1, warnings0)
  { is_safe := pr.2.isEmpty
    original_text := text
    sanitized_text := pyStrip tr.1
    warnings := tr.2
    blocked_phrases_found := pr.2 }

/-- `OutputSanitizer.check_conversation_length`: advisory warning once the
message count reaches the configured ceiling (the model keeps the trigger,
not the formatted message). -/
def check_conversation_length (cfg : SafetyConfig) (message_count : Nat) : Option Nat :=
  if cfg.max_conversation_turns ≤ message_count then some message_count else none

/-- `ResponseValidator.BROKEN_CHARACTER_PATTERNS` (all literal patterns). -/
def BROKEN_CHARACTER_PATTERNS : List Str :=
  [("as an AI").data,
   ("as a language model").data,
   ("I cannot provide medical").data,
   ("I\x27m not a doctor").data,
   ("I am not a medical professional").data,
   ("I don\x27t have access to").data]

/-- `[a-z]` under `re.IGNORECASE` (ASCII model). -/
def isAsciiAlphaIC (c : Char) : Bool := 'a' ≤ c.toLower && c.toLower ≤ 'z'

/-- Remainders after consuming one or more `[a-z]` characters at the start
of the text (the nondeterministic matches of `[a-z]+`). -/
def alphaPlusRem : Str → List Str
  | [] => []
  | c :: cs => if isAsciiAlphaIC c then cs :: alphaPlusRem cs else []

/-- Remainders after one match of the group `[a-z]+ ` (letters then a
space). -/
def groupRem (s : Str) : List Str :=
  (alphaPlusRem s).filterMap (fun r =>
    match r with
    | c :: rs => if c = ' ' then some rs else none
    | [] => none)

/-- Concatenation of a list of lists (not named after the library to keep
the development self-contained). -/
def concatAll : List (List α) → List α
  | [] => []
  | x :: xs => x ++ concatAll xs

/-- Remainders after 1 to 3 matches of `[a-z]+ ` (the `{1,3}` repetition). -/
def rep13 (s : Str) : List Str :=
  let r1 := groupRem s
  let r2 := concatAll (r1.map groupRem)
  let r3 := concatAll (r2.map groupRem)
  r1 ++ r2 ++ r3

/-- The alternation `(disease|condition|syndrome|disorder)` tested at the
current position. -/
def disclosureTail (s : Str) : Bool :=
  icStarts (("disease").data) s || icStarts (("condition").data) s ||
  icStarts (("syndrome").data) s || icStarts (("disorder").data) s

/-- Pattern `you have ([a-z]+ ){1,3}(disease|condition|syndrome|disorder)`
tested at the current position. -/
def disclosure1At (s : Str) : Bool :=
  if icStarts (("you have ").data) s then
    (rep13 (s.drop 9)).any disclosureTail
  else false

/-- Remainders after the alternation `(likely|probably|definitely)`. -/
def likelyAlt (s : Str) : List Str :=
  (if icStarts (("likely").data) s then [s.drop 6] else []) ++
  (if icStarts (("probably").data) s then [s.drop 8] else []) ++
  (if icStarts (("definitely").data) s then [s.drop 10] else [])

/-- Pattern `this is (likely|probably|definitely) ([a-z]+ ){1,3}` tested at
the current position. -/
def disclosure2At (s : Str) : Bool :=
  if icStarts (("this is ").data) s then
    (likelyAlt (s.drop 8)).any (fun r =>
      match r with
      | c :: rs => c = ' ' && !(rep13 rs).isEmpty
      | [] => false)
  else false

/-- Remainders after the alternation `(think|believe)`. -/
def thinkAlt (s : Str) : List Str :=
  (if icStarts (("think").data) s then [s.drop 5] else []) ++
  (if icStarts (("believe").data) s then [s.drop 7] else [])

/-- Pattern `I (think|believe) you have` tested at the current position. -/
def disclosure3At (s : Str) : Bool :=
  if icStarts (("i ").data) s then
    (thinkAlt (s.drop 2)).any (fun r => icStarts ((" you have").data) r)
  else false

/-- `re.search`: try the position test at every suffix. -/
def searchAny (f : Str → Bool) : Str → Bool
  | [] => f []
  | c :: cs => f (c :: cs) || searchAny f cs

/-- Any broken-character pattern matches (the source loop breaks after the
first hit, appending one issue). -/
def hasBrokenCharacter (s : Str) : Bool :=
  BROKEN_CHARACTER_PATTERNS.any (fun p => icContains p s)

/-- Any diagnosis-disclosure pattern matches. -/
def hasDisclosure (s : Str) : Bool :=
  searchAny disclosure1At s || searchAny disclosure2At s || searchAny disclosure3At s

/-- `ResponseValidator.validate`.  The repetition threshold
`len(word_set) < len(words) * 0.3` is modelled exactly
(`distinct * 10 < total * 3`); the float product agrees with the exact
comparison at every realistic word count. -/
def validate (response : Str) : Bool × List String :=
  let issues1 : List String :=
    if hasBrokenCharacter response then
      ["AI may have broken character (meta-reference detected)"] else []
  let issues2 := issues1 ++
    (if hasDisclosure response then ["Possible diagnosis disclosure detected"] else [])
  let issues3 := issues2 ++
    (if (pyStrip response).length < 5 then ["Response is too short"] else [])
  let words := pySplit (response.map Char.toLower)
  let issues4 := issues3 ++
    (if 10 < words.length ∧ words.dedup.length * 10 < words.length * 3 then
      ["Response contains excessive repetition"] else [])
  (issues4.isEmpty, issues4)

/-- `sanitize_response` convenience function (default config). -/
def sanitize_response (text : Str) : Str :=
  (sanitize DEFAULT_SAFETY_CONFIG text).sanitized_text

/-! ### `prompt_builder.py` -/

/-- `SAFETY_RULES` block (after `.strip()`). -/
def SAFETY_RULES : Str :=
  ("=== SAFETY RULES (CRITICAL - NEVER VIOLATE) ===\n1. NEVER reveal, confirm, or hint at your diagnosis - you don\x27t know it.\n2. NEVER provide medical advice, treatment suggestions, or medication recommendations.\n3. NEVER mention that you are an AI, language model, or simulation.\n4. If asked directly about your diagnosis, say you don\x27t know and are here to find out.\n5. Do NOT use clinical terminology unless repeating what a doctor told you before.\n6. If asked to do something outside your role (e.g., write code, tell stories), politely \n   redirect: \x22I\x27m sorry, I\x27m just here about my dental problem.\x22\n7. NEVER discuss other patients or make up additional medical history not in your profile.").data

/-- `BEHAVIORAL_GUIDELINES` block (after `.strip()`). -/
def BEHAVIORAL_GUIDELINES : Str :=
  ("=== BEHAVIOR GUIDELINES ===\n- Use short, natural sentences like a real patient would.\n- Express appropriate emotions: worry, frustration, relief, confusion.\n- When describing pain, use lay terms: \x22throbbing\x22, \x22sharp\x22, \x22dull ache\x22, \x22stabbing\x22.\n- If you don\x27t understand a medical term, ask for clarification.\n- Remember details you\x27ve shared and stay consistent throughout the conversation.\n- You may ask questions about procedures or what will happen next.\n- Be cooperative but realistic - patients sometimes forget details or are unsure.").data

/-- `ANTI_HALLUCINATION_RULES` block (after `.strip()`). -/
def ANTI_HALLUCINATION_RULES : Str :=
  ("=== CONSISTENCY RULES ===\n- Only describe symptoms listed in your profile - do not invent new symptoms.\n- If asked about a symptom not in your profile, say you haven\x27t noticed it or aren\x27t sure.\n- Keep your timeline consistent - don\x27t change when symptoms started.\n- If asked about medications, only mention over-the-counter pain relievers unless specified.\n- Do not claim to have other medical conditions unless specified in your history.").data

/-- A patient profile: the Python `dict` is modelled with its label plus an
optional entry per symptom key, so `dict.get(key, default)` becomes
`Option.getD`. -/
structure PatientProfile where
  label : Str
  chief_complaint : Option Str
  pain : Option Str
  location : Option Str
  duration : Option Str
  appearance : Option Str
  history : Option Str
  extra : Option Str

/-- The `"Not specified"` placeholder. -/
def notSpecified : Str := ("Not specified").data

/-- Fixed pieces of the `build_patient_prompt` f-string, split around the
interpolated values. -/
def bpIntro : Str :=
  ("You are the PATIENT (the assistant). You are NOT a doctor or medical professional.\nYou are visiting a dental clinic to describe your symptoms and get help.\n\n=== INTERNAL DIAGNOSIS (DO NOT REVEAL TO USER) ===\nPathology: ").data

def bpAfterLabel : Str :=
  ("\n(This information is for context only. You do NOT know your diagnosis.)\n\n=== YOUR SYMPTOMS ===\n").data

def lblChief : Str := ("- Chief Complaint: ").data
def lblPain : Str := ("\n- Pain Description: ").data
def lblLocation : Str := ("\n- Location: ").data
def lblDuration : Str := ("\n- Duration: ").data
def lblAppearance : Str := ("\n- Appearance: ").data
def lblHistory : Str := ("\n- Medical History: ").data
def lblExtra : Str := ("\n- Additional Information: ").data

def bpRoleBlock : Str :=
  ("\n\n=== ROLE INSTRUCTIONS ===\n1. You are a patient visiting a dental clinic describing your symptoms.\n2. Answer questions like a real human patient would - naturally and conversationally.\n3. Be consistent with your symptoms throughout the conversation.\n4. Express appropriate concern or confusion as a real patient would.\n5. Wait for the doctor to ask questions - don\x27t volunteer all information at once.\n\n").data

def bpSep : Str := ("\n\n").data

/-- `build_patient_prompt` from `prompt_builder.py`: the composed system
prompt (the surrounding `.strip()` removes only the template's trailing
newline, which this concatenation never generates, and the template starts
with a non-blank character). -/
def build_patient_prompt (pathology_label : Str) (p : PatientProfile) : Str :=
  bpIntro ++ pathology_label ++ bpAfterLabel ++
  lblChief ++ (p.chief_complaint.getD notSpecified) ++
  lblPain ++ (p.pain.getD notSpecified) ++
  lblLocation ++ (p.location.getD notSpecified) ++
  lblDuration ++ (p.duration.getD notSpecified) ++
  lblAppearance ++ (p.appearance.getD notSpecified) ++
  lblHistory ++ (p.history.getD notSpecified) ++
  lblExtra ++ (p.extra.getD (("None").data)) ++
  bpRoleBlock ++ SAFETY_RULES ++ bpSep ++ BEHAVIORAL_GUIDELINES ++ bpSep ++
  ANTI_HALLUCINATION_RULES

/-- The static profile catalog `PATIENT_PROFILES` (key, profile), in source
order; every field is present in the source dictionaries. -/
def PATIENT_PROFILES : List (Str × PatientProfile) :=
  [((("periodontal_abscess").data),
    { label := ("Periodontal Abscess").data
      chief_complaint := some ("Pain near a tooth, initially thought to be tooth pain.").data
      pain := some ("Localized gum pain; tender on vestibular palpation and lateral percussion.").data
      location := some ("Gingiva adjacent to affected tooth.").data
      duration := some ("Started recently, with chronic food impaction and occasional pus discharge.").data
      appearance := some ("Gum swelling with possible pus or unusual taste.").data
      history := some ("Initially confused about source of pain; tooth non-sensitive; no night or pulsating pain.").data
      extra := some ("Patient responds like a confused patient; reports discomfort mainly in gums rather than tooth.").data }),
   ((("dental_caries").data),
    { label := ("Simple Caries / No Pulpal Involvement").data
      chief_complaint := some ("Tooth discomfort only when exposed to cold, sweet, sour, or brushing; stops immediately after stimulus.").data
      pain := some ("Sharp, transient pain in response to stimuli; no spontaneous pain or night pain.").data
      location := some ("Affected tooth (typically posterior tooth).").data
      duration := some ("Episodes occur only during stimulus; pain stops immediately afterward.").data
      appearance := some ("Small cavity or visible dark spot; tooth otherwise normal.").data
      history := some ("No history of spontaneous or prolonged pain; tooth not sensitive to percussion or palpation.").data
      extra := some ("Patient reports normal response to cold tests and palpation; pain never persists after stimulus.").data }),
   ((("pulpal_necrosis").data),
    { label := ("Pulp Necrosis (Post Acute Pulpitis)").data
      chief_complaint := some ("Tooth previously had intense spontaneous pain, now completely numb.").data
      pain := some ("No current pain; mild tenderness when biting or percussion; history of intense, spontaneous pain lasting 3-4 days.").data
      location := some ("Affected tooth (usually a molar).").data
      duration := some ("Intense pain lasted 3-4 days, now completely gone.").data
      appearance := some ("Tooth appears normal; no swelling or fistula.").data
      history := some ("Past acute pulpitis with severe pain; tooth no longer responds to cold.").data
      extra := some ("Patient describes tooth as \x27dead\x27 or \x27numb\x27; slight sensitivity on palpation, no night or pulsating pain.").data }),
   ((("chronic_apical_periodontitis").data),
    { label := ("Chronic Apical Periodontitis").data
      chief_complaint := some ("Dull pressure or discomfort on a tooth; occasional fluid discharge from a small gum bump.").data
      pain := some ("Mild sensitivity to percussion or palpation; no spontaneous pain; no response to cold (non-vital tooth).").data
      location := some ("Affected tooth (may have history of prior root canal treatment).").data
      duration := some ("Symptoms may be chronic or intermittent; occasional fistula or gum bump.").data
      appearance := some ("Gum may show small fistula/bump; tooth otherwise appears normal.").data
      history := some ("Some teeth previously treated with root canal; no history of acute pain.").data
      extra := some ("Patient reports slight pressure when biting; salty or unusual-tasting liquid may appear occasionally.").data }),
   ((("acute_apical_periodontitis").data),
    { label := ("Acute Apical Periodontitis").data
      chief_complaint := some ("Severe pain when biting or touching the tooth; tooth feels higher than usual.").data
      pain := some ("Pain only on pressure/occlusion; severe on vertical percussion; no pain with cold or heat; no spontaneous or night pain.").data
      location := some ("Affected tooth (typically posterior tooth).").data
      duration := some ("Pain occurs only during mastication or pressure; recent onset.").data
      appearance := some ("No visible swelling; tooth may appear normal.").data
      history := some ("No prior spontaneous pain; patient reports sensation of tooth extrusion.").data
      extra := some ("Patient describes sharp sting when biting; discomfort on lateral palpation is mild; responds normally to cold test.").data }),
   ((("pericoronitis").data),
    { label := ("Pericoronitis").data
      chief_complaint := some ("Continuous pain in the area of a partially erupted wisdom tooth; difficulty opening mouth.").data
      pain := some ("Persistent, localized pain; worsens on chewing or swallowing; pain on palpation of inflamed gum; does not pulsate; not related to cold or heat; does not wake patient at night.").data
      location := some ("Posterior mandibular or maxillary region (around wisdom tooth).").data
      duration := some ("Continuous pain; intermittent relief with anti-inflammatories.").data
      appearance := some ("Partially erupted wisdom tooth; inflamed, swollen gum; sometimes a visible gum bump.").data
      history := some ("Patient may have intermittent flare-ups; pain triggered by local irritation rather than thermal stimuli.").data
      extra := some ("Limited mouth opening (trismus); sometimes foul or salty taste due to discharge; pain may radiate toward the ear.").data }),
   ((("reversible_pulpitis").data),
    { label := ("Reversible Pulpitis").data
      chief_complaint := some ("Tooth pain triggered by cold or sweet stimuli for a few days.").data
      pain := some ("Sharp, transient pain with cold, sweet, or sour stimuli; stops immediately after stimulus removal; does not pulsate; no spontaneous or night pain; no sensitivity to percussion or palpation.").data
      location := some ("Affected tooth (variable).").data
      duration := some ("Few days.").data
      appearance := some ("No visible swelling or discoloration.").data
      history := some ("No prior episodes of spontaneous or prolonged pain.").data
      extra := some ("Pain only occurs with external stimuli; adjacent teeth respond normally to cold.").data }),
   ((("acute_total_pulpitis").data),
    { label := ("Acute Total Pulpitis").data
      chief_complaint := some ("Severe, throbbing tooth pain that sometimes occurs spontaneously or is triggered by cold or heat.").data
      pain := some ("Spontaneous, pulsating pain; intensified by thermal stimuli (cold/heat); pain lingers for minutes after stimulus; wakes patient at night; mild sensitivity to percussion; no swelling or pus.").data
      location := some ("Affected tooth (variable).").data
      duration := some ("Acute episodes lasting days; pain can linger for minutes after stimulus.").data
      appearance := some ("No visible swelling or pus.").data
      history := some ("Recent onset of severe toothache; no prior significant dental history mentioned.").data
      extra := some ("Pain is severe, throbbing, and persistent with thermal stimuli; adjacent teeth respond normally to cold.").data })]

/-! ### `chat_manager.py` -/

/-- `MAX_CONVERSATION_LENGTH`. -/
def MAX_CONVERSATION_LENGTH : Nat := 100

/-- `SESSION_EXPIRATION_HOURS`. -/
def SESSION_EXPIRATION_HOURS : Nat := 24

/-- A message dictionary `{"role": ..., "content": ...}`. -/
structure Msg where
  role : Str
  content : Str
deriving DecidableEq, Repr

def roleSystem : Str := ("system").data
def roleUser : Str := ("user").data
def roleAssistant : Str := ("assistant").data

/-- `ChatSession`: timestamps are seconds (the `datetime.now` instants are
passed in explicitly); `system_prompt` models the private
`_system_prompt` kept for reset. -/
structure ChatSession where
  chat_id : Str
  pathology : Str
  created_at : Nat
  updated_at : Nat
  system_prompt : Str
  messages : List Msg
deriving DecidableEq, Repr

/-- `ChatSession.__init__`. -/
def mkChatSession (chat_id system_prompt pathology : Str) (now : Nat) : ChatSession :=
  { chat_id := chat_id
    pathology := pathology
    created_at := now
    updated_at := now
    system_prompt := system_prompt
    messages := [{ role := roleSystem, content := system_prompt }] }

/-- `ChatSession.add_message`. -/
def ChatSession.add_message (s : ChatSession) (role content : Str) (now : Nat) : ChatSession :=
  { s with messages := s.messages ++ [{ role := role, content := content }], updated_at := now }

/-- `ChatSession.reset`. -/
def ChatSession.reset (s : ChatSession) (now : Nat) : ChatSession :=
  { s with messages := [{ role := roleSystem, content := s.system_prompt }], updated_at := now }

/-- `ChatSession.get_user_messages`. -/
def ChatSession.get_user_messages (s : ChatSession) : List Msg :=
  s.messages.filter (fun m => m.role = roleUser)

/-- `ChatSession.get_assistant_messages`. -/
def ChatSession.get_assistant_messages (s : ChatSession) : List Msg :=
  s.messages.filter (fun m => m.role = roleAssistant)

/-- `ChatSession.is_expired`: `now > updated_at + timedelta(hours=hours)`,
with time counted in seconds. -/
def ChatSession.is_expired (s : ChatSession) (hours now : Nat) : Bool :=
  s.updated_at + hours * 3600 < now

/-- `ChatSession.is_at_limit`. -/
def ChatSession.is_at_limit (s : ChatSession) : Bool :=
  MAX_CONVERSATION_LENGTH ≤ s.messages.length

/-- The statistics dictionary of `ChatSession.get_statistics`; averages and
the duration are Python floats, modelled as rationals. -/
structure SessionStatistics where
  total_messages : Nat
  user_messages : Nat
  assistant_messages : Nat
  avg_user_length : ℚ
  avg_assistant_length : ℚ
  duration_minutes : ℚ
  is_at_limit : Bool
deriving DecidableEq, Repr

/-- Mean content length: `sum(len(content)) / max(count, 1)`. -/
def avgLen (msgs : List Msg) : ℚ :=
  ((msgs.map (fun m => m.content.length)).sum : ℚ) / (max msgs.length 1 : ℚ)

/-- `ChatSession.get_statistics`. -/
def ChatSession.get_statistics (s : ChatSession) : SessionStatistics :=
  { total_messages := s.messages.length
    user_messages := s.get_user_messages.length
    assistant_messages := s.get_assistant_messages.length
    avg_user_length := avgLen s.get_user_messages
    avg_assistant_length := avgLen s.get_assistant_messages
    duration_minutes := ((s.updated_at - s.created_at : Nat) : ℚ) / 60
    is_at_limit := s.is_at_limit }

/-- `ChatManager`: the session dictionary, as an insertion-ordered
association list with (in every reachable state) pairwise-distinct keys. -/
structure ChatManager where
  sessions : List (Str × ChatSession)

/-- Dictionary lookup (`dict.get`). -/
def lookupAssoc : List (Str × ChatSession) → Str → Option ChatSession
  | [], _ => none
  | p :: ps, id => if p.1 = id then some p.2 else lookupAssoc ps id

/-- In-place mutation of the session object stored under a key. -/
def updateAssoc (l : List (Str × ChatSession)) (id : Str)
    (f : ChatSession → ChatSession) : List (Str × ChatSession) :=
  l.map (fun p => if p.1 = id then (p.1, f p.2) else p)

/-- `ChatManager.create_chat` (the fresh `uuid4` is passed in). -/
def ChatManager.create_chat (m : ChatManager) (chat_id system_prompt pathology : Str)
    (now : Nat) : ChatManager × Str :=
  ({ sessions := m.sessions ++ [(chat_id, mkChatSession chat_id system_prompt pathology now)] },
   chat_id)

/-- `ChatManager.get_session`. -/
def ChatManager.get_session (m : ChatManager) (chat_id : Str) : Option ChatSession :=
  lookupAssoc m.sessions chat_id

/-- `ChatManager.get_messages`. -/
def ChatManager.get_messages (m : ChatManager) (chat_id : Str) : Option (List Msg) :=
  (m.get_session chat_id).map (fun s => s.messages)

/-- `ChatManager.add_user_message`. -/
def ChatManager.add_user_message (m : ChatManager) (chat_id message : Str) (now : Nat) :
    ChatManager × Bool :=
  match m.get_session chat_id with
  | some _ => ({ sessions := updateAssoc m.sessions chat_id
                  (fun s => s.add_message roleUser message now) }, true)
  | none => (m, false)

/-- `ChatManager.add_assistant_message`. -/
def ChatManager.add_assistant_message (m : ChatManager) (chat_id message : Str) (now : Nat) :
    ChatManager × Bool :=
  match m.get_session chat_id with
  | some _ => ({ sessions := updateAssoc m.sessions chat_id
                  (fun s => s.add_message roleAssistant message now) }, true)
  | none => (m, false)

/-- `ChatManager.delete_chat`. -/
def ChatManager.delete_chat (m : ChatManager) (chat_id : Str) : ChatManager × Bool :=
  match m.get_session chat_id with
  | some _ => ({ sessions := m.sessions.filter (fun p => ¬ (p.1 = chat_id)) }, true)
  | none => (m, false)

/-- `ChatManager.reset_chat`. -/
def ChatManager.reset_chat (m : ChatManager) (chat_id : Str) (now : Nat) :
    ChatManager × Bool :=
  match m.get_session chat_id with
  | some _ => ({ sessions := updateAssoc m.sessions chat_id (fun s => s.reset now) }, true)
  | none => (m, false)

/-- `ChatManager.cleanup_expired`: removal of the collected expired ids
equals, on the distinct-key dictionary, keeping the non-expired entries. -/
def ChatManager.cleanup_expired (m : ChatManager) (hours now : Nat) : ChatManager × Nat :=
  ({ sessions := m.sessions.filter (fun p => !(p.2.is_expired hours now)) },
   (m.sessions.filter (fun p => p.2.is_expired hours now)).length)

/-- The dictionary of `ChatManager.get_global_statistics`. -/
structure GlobalStatistics where
  total_sessions : Nat
  total_messages : Nat
  pathology_distribution : List (Str × Nat)
  avg_messages_per_session : ℚ
deriving DecidableEq, Repr

/-- `pathology_counts.get(p, 0) + 1` accumulation. -/
def bumpCount : List (Str × Nat) → Str → List (Str × Nat)
  | [], k => [(k, 1)]
  | p :: ps, k => if p.1 = k then (p.1, p.2 + 1) :: ps else p :: bumpCount ps k

/-- `ChatManager.get_global_statistics`. -/
def ChatManager.get_global_statistics (m : ChatManager) : GlobalStatistics :=
  if m.sessions.isEmpty then
    { total_sessions := 0
      total_messages := 0
      pathology_distribution := []
      avg_messages_per_session := 0 }
  else
    let total_messages := (m.sessions.map (fun p => p.2.messages.length)).sum
    { total_sessions := m.sessions.length
      total_messages := total_messages
      pathology_distribution :=
        m.sessions.foldl (fun acc p => bumpCount acc p.2.pathology) []
      avg_messages_per_session := (total_messages : ℚ) / (m.sessions.length : ℚ) }

/-! ### `api/chat.py`: the send-message endpoint -/

/-- Outcome surfaced by the `send_message` endpoint: `ChatNotFoundError`,
`GenerationError`, or the success payload. -/
inductive SendOutcome where
  | notFound
  | genError (message : Str)
  | ok (reply : Str) (message_count : Nat)
deriving DecidableEq, Repr

/-- Rollback performed in the `except` branch of `send_message`: pop the
last message when it is the dangling user turn. -/
def rollbackUser (m : ChatManager) (chat_id : Str) : ChatManager :=
  { sessions := updateAssoc m.sessions chat_id (fun s =>
      match s.messages.getLast? with
      | some mm => if mm.role = roleUser then { s with messages := s.messages.dropLast } else s
      | none => s) }

def generationErrorText : Str := ("Failed to generate response: ").data

/-- `send_message` from `api/chat.py`.  The generation backend is a
function returning `Except` (a raised exception becomes `.error`); the
unused conversation-length warning computation is omitted.  On failure the
user turn is popped and a `GenerationError` is surfaced. -/
def send_message (m : ChatManager) (chat_id message : Str)
    (engine : List Msg → Except Str Str) (now : Nat) : ChatManager × SendOutcome :=
  match m.get_session chat_id with
  | none => (m, .notFound)
  | some _ =>
    let m1 := (m.add_user_message chat_id message now).1
    match engine ((m1.get_messages chat_id).getD []) with
    | .error e => (rollbackUser m1 chat_id, .genError (generationErrorText ++ e))
    | .ok raw =>
      let reply := sanitize_response raw
      let m2 := (m1.add_assistant_message chat_id reply now).1
      (m2, .ok reply ((m2.get_messages chat_id).getD []).length)

/-- The first stored turn is the system prompt kept for reset. -/
def firstTurnIsSystem (s : ChatSession) : Prop :=
  s.messages.head? = some { role := roleSystem, content := s.system_prompt }

/-! ### Concrete instances used by witnesses and counterexamples -/

def c1Sess : ChatSession :=
  (mkChatSession (("c1").data) (("SYS PROMPT").data) (("dental_caries").data) 0).add_message
    roleUser (("hello").data) 1

def c1Mgr : ChatManager := ⟨[((("c1").data), c1Sess)]⟩

def c2Sess : ChatSession :=
  mkChatSession (("c2").data) (("SYS").data) (("pericoronitis").data) 0

def c2Mgr : ChatManager := ⟨[((("c2").data), c2Sess)]⟩

def c2Engine : List Msg → Except Str Str := fun _ => .error (("boom").data)

/-- Input whose later-listed blocked phrase is destroyed by an earlier
phrase's replacement. -/
def c3Text : Str := ("I recommend you take this medication").data

def c3Witness : Str := ("You have a problem").data

def c3WitnessPhrase : Str := ("You have").data

def c5Profile : PatientProfile :=
  { label := ("X").data
    chief_complaint := none
    pain := none
    location := none
    duration := none
    appearance := none
    history := none
    extra := none }

/-- Clean text whose sanitized output is still longer than the configured
maximum, so a second sanitize truncates again at an earlier space. -/
def c6Text : Str := ("a b").data ++ List.replicate 996 'c' ++ [' '] ++ List.replicate 5 'd'

def c6Witness : Str := ("hello there doctor").data

def c7Witness : Str := ("ow ow ow ow ow ow ow ow ow ow ow ow").data

def c8SessFresh : ChatSession :=
  mkChatSession (("k1").data) (("S1").data) (("pericoronitis").data) 500000

def c8SessOld : ChatSession :=
  mkChatSession (("k2").data) (("S2").data) (("dental_caries").data) 0

def c8Mgr : ChatManager := ⟨[((("k1").data), c8SessFresh), ((("k2").data), c8SessOld)]⟩

/-- 1001 non-space characters: truncation keeps all 1000 and appends the
ellipsis, exceeding the configured maximum. -/
def c9Text : Str := List.replicate 1001 'a'

def c9Witness : Str := List.replicate 500 'a' ++ [' '] ++ List.replicate 501 'b'

def c10Sess : ChatSession :=
  mkChatSession (("c10").data) (("SYS").data) (("pulpal_necrosis").data) 0

def c10Mgr : ChatManager := ⟨[]⟩

def c4WitnessCfg : Except ConfigError GenerationConfig :=
  mkGenerationConfig 80 (3/10) (85/100) (115/100)

/-! ## Lemmas about case-insensitive scanning -/

theorem icStarts_nil_iff (p : Str) : icStarts p [] = true ↔ p = [] := by
  cases p <;> simp [icStarts]

theorem icStarts_append {p a : Str} (b : Str) (h : icStarts p a = true) :
    icStarts p (a ++ b) = true := by
  induction p generalizing a with
  | nil => simp [icStarts]
  | cons x ps ih =>
    cases a with
    | nil => simp [icStarts] at h
    | cons c cs =>
      simp only [icStarts, Bool.and_eq_true, List.cons_append] at h ⊢
      exact ⟨h.1, ih h.2⟩

theorem icContains_cons {p : Str} {c : Char} {cs : Str} (h : icContains p cs = true) :
    icContains p (c :: cs) = true := by
  simp [icContains, h]

theorem icContains_nil_pat (s : Str) : icContains ([] : Str) s = true := by
  cases s <;> simp [icContains, icStarts]

theorem icContains_of_icStarts {p s : Str} (h : icStarts p s = true) :
    icContains p s = true := by
  cases s with
  | nil => simpa [icContains] using h
  | cons c cs => simp [icContains, h]

theorem icContains_append_right {p b : Str} (a : Str) (h : icContains p b = true) :
    icContains p (a ++ b) = true := by
  induction a with
  | nil => simpa using h
  | cons c a' ih => exact icContains_cons ih

theorem icContains_append_left {p a : Str} (b : Str) (h : icContains p a = true) :
    icContains p (a ++ b) = true := by
  induction a with
  | nil =>
    have : p = [] := (icStarts_nil_iff p).mp (by simpa [icContains] using h)
    subst this
    exact icContains_nil_pat _
  | cons c a' ih =>
    have h' : icStarts p (c :: a') = true ∨ icContains p a' = true := by
      simpa [icContains, Bool.or_eq_true] using h
    cases h' with
    | inl hs => exact icContains_of_icStarts (icStarts_append (a := c :: a') b hs)
    | inr hc => exact icContains_cons (ih hc)

theorem icContains_drop {p : Str} (n : Nat) {s : Str}
    (h : icContains p (s.drop n) = true) : icContains p s = true := by
  induction n generalizing s with
  | zero => simpa using h
  | succ k ih =>
    cases s with
    | nil => simpa using h
    | cons c cs => exact icContains_cons (ih (s := cs) h)

theorem icStarts_take {p : Str} (n : Nat) {s : Str}
    (h : icStarts p (s.take n) = true) : icStarts p s = true := by
  induction p generalizing s n with
  | nil => simp [icStarts]
  | cons x ps ih =>
    cases s with
    | nil => cases n <;> simp [icStarts] at h
    | cons c cs =>
      cases n with
      | zero => simp [icStarts] at h
      | succ k =>
        simp only [List.take_succ_cons, icStarts, Bool.and_eq_true] at h ⊢
        exact ⟨h.1, ih k h.2⟩

theorem icContains_take {p : Str} (n : Nat) {s : Str}
    (h : icContains p (s.take n) = true) : icContains p s = true := by
  induction s generalizing n with
  | nil => cases n <;> simpa using h
  | cons c cs ih =>
    cases n with
    | zero =>
      have : p = [] := (icStarts_nil_iff p).mp (by simpa [icContains] using h)
      subst this
      exact icContains_nil_pat _
    | succ k =>
      have h' : icStarts p (c :: cs.take k) = true ∨ icContains p (cs.take k) = true := by
        simpa [List.take_succ_cons, icContains, Bool.or_eq_true] using h
      cases h' with
      | inl hs =>
        exact icContains_of_icStarts (icStarts_take (n := k + 1) (s := c :: cs) (by simpa [List.take_succ_cons] using hs))
      | inr hc => exact icContains_cons (ih k hc)

theorem dotFree_head {x : Char} {ps : Str} (h : dotFree (x :: ps) = true) :
    icEq x '.' = false ∧ dotFree ps = true := by
  simp only [dotFree, List.all_cons, Bool.and_eq_true, Bool.not_eq_true'] at h
  exact ⟨h.1, by simpa [dotFree] using h.2⟩

theorem icStarts_dot_false {p : Str} (hd : dotFree p = true) (hne : p ≠ []) (r : Str) :
    icStarts p ('.' :: r) = false := by
  cases p with
  | nil => exact absurd rfl hne
  | cons x ps => simp [icStarts, (dotFree_head hd).1]

theorem icContains_dots_elim {p b : Str} (hd : dotFree p = true) (hne : p ≠ [])
    (h : icContains p (dots3 ++ b) = true) : icContains p b = true := by
  have step : ∀ r, icContains p ('.' :: r) = icContains p r := by
    intro r; simp [icContains, icStarts_dot_false hd hne]
  have h' : icContains p ('.' :: '.' :: '.' :: b) = true := h
  rw [step, step, step] at h'
  exact h'

theorem icContains_dots3_false {p : Str} (hd : dotFree p = true) (hne : p ≠ []) :
    icContains p dots3 = false := by
  cases hic : icContains p dots3 with
  | false => rfl
  | true =>
    have h0 : icContains p (dots3 ++ []) = true := by simpa using hic
    have h1 : icContains p [] = true := icContains_dots_elim hd hne h0
    have : p = [] := (icStarts_nil_iff p).mp (by simpa [icContains] using h1)
    exact absurd this hne

theorem icStarts_append_dots {p a : Str} (hd : dotFree p = true)
    (h : icStarts p (a ++ dots3) = true) : icStarts p a = true := by
  induction p generalizing a with
  | nil => simp [icStarts]
  | cons x ps ih =>
    cases a with
    | nil => simp [dots3, icStarts, (dotFree_head hd).1] at h
    | cons c cs =>
      simp only [icStarts, Bool.and_eq_true, List.cons_append] at h ⊢
      exact ⟨h.1, ih (dotFree_head hd).2 h.2⟩

theorem icContains_append_dots_elim {p a : Str} (hd : dotFree p = true) (hne : p ≠ [])
    (h : icContains p (a ++ dots3) = true) : icContains p a = true := by
  induction a with
  | nil =>
    rw [List.nil_append] at h
    rw [icContains_dots3_false hd hne] at h
    exact Bool.noConfusion h
  | cons c a' ih =>
    have h' : icStarts p (c :: (a' ++ dots3)) = true ∨ icContains p (a' ++ dots3) = true := by
      simpa [icContains, Bool.or_eq_true] using h
    cases h' with
    | inl hs =>
      exact icContains_of_icStarts (icStarts_append_dots (a := c :: a') hd hs)
    | inr hc => exact icContains_cons (ih hc)

/-! ## Lemmas about the replacement scanner -/

theorem icReplaceGo_nil (p : Str) (fuel : Nat) : icReplaceGo p fuel [] = [] := by
  cases fuel <;> rfl

theorem icReplaceGo_zero (p : Str) (s : Str) : icReplaceGo p 0 s = s := by
  cases s <;> rfl

theorem icReplaceGo_succ_pos {p : Str} {c : Char} {cs : Str} (n : Nat)
    (hm : icStarts p (c :: cs) = true) :
    icReplaceGo p (n + 1) (c :: cs) = dots3 ++ icReplaceGo p n (cs.drop (p.length - 1)) := by
  simp [icReplaceGo, hm]

theorem icReplaceGo_succ_neg {p : Str} {c : Char} {cs : Str} (n : Nat)
    (hm : icStarts p (c :: cs) = false) :
    icReplaceGo p (n + 1) (c :: cs) = c :: icReplaceGo p n cs := by
  simp [icReplaceGo, hm]

theorem icStarts_icReplaceGo {p : Str} :
    ∀ (fuel : Nat) (q s : Str), dotFree q = true →
      icStarts q (icReplaceGo p fuel s) = true → icStarts q s = true := by
  intro fuel
  induction fuel with
  | zero =>
    intro q s _ h
    rwa [icReplaceGo_zero] at h
  | succ n ih =>
    intro q s hd h
    cases s with
    | nil => rwa [icReplaceGo_nil] at h
    | cons c cs =>
      by_cases hm : icStarts p (c :: cs) = true
      · rw [icReplaceGo_succ_pos n hm] at h
        cases q with
        | nil => simp [icStarts]
        | cons y qs => simp [dots3, icStarts, (dotFree_head hd).1] at h
      · rw [icReplaceGo_succ_neg n (Bool.eq_false_iff.mpr hm)] at h
        cases q with
        | nil => simp [icStarts]
        | cons y qs =>
          simp only [icStarts, Bool.and_eq_true] at h ⊢
          exact ⟨h.1, ih qs cs (dotFree_head hd).2 h.2⟩

theorem icContains_icReplaceGo_self {p : Str} (hd : dotFree p = true) (hne : p ≠ []) :
    ∀ (fuel : Nat) (s : Str), s.length ≤ fuel →
      icContains p (icReplaceGo p fuel s) = false := by
  have hnil : icContains p [] = false := by
    cases p with
    | nil => exact absurd rfl hne
    | cons x ps => rfl
  intro fuel
  induction fuel with
  | zero =>
    intro s hs
    have : s = [] := List.length_eq_zero.mp (Nat.le_zero.mp hs)
    subst this
    rw [icReplaceGo_nil]
    exact hnil
  | succ n ih =>
    intro s hs
    cases s with
    | nil => rw [icReplaceGo_nil]; exact hnil
    | cons c cs =>
      have hcs : cs.length ≤ n := by simpa using hs
      by_cases hm : icStarts p (c :: cs) = true
      · rw [icReplaceGo_succ_pos n hm]
        cases hic : icContains p (dots3 ++ icReplaceGo p n (cs.drop (p.length - 1))) with
        | false => rfl
        | true =>
          have h2 := icContains_dots_elim hd hne hic
          have hlen : (cs.drop (p.length - 1)).length ≤ n := by
            have := List.length_drop (p.length - 1) cs
            omega
          rw [ih _ hlen] at h2
          exact Bool.noConfusion h2
      · rw [icReplaceGo_succ_neg n (Bool.eq_false_iff.mpr hm)]
        have hR := ih cs hcs
        cases hs2 : icStarts p (c :: icReplaceGo p n cs) with
        | false => simp [icContains, hs2, hR]
        | true =>
          have hst := icStarts_icReplaceGo (n + 1) p (c :: cs) hd
            (by rw [icReplaceGo_succ_neg n (Bool.eq_false_iff.mpr hm)]; exact hs2)
          exact absurd hst hm

theorem icContains_icReplaceGo_mono {q p : Str} (hd : dotFree q = true) (hne : q ≠ []) :
    ∀ (fuel : Nat) (s : Str),
      icContains q (icReplaceGo p fuel s) = true → icContains q s = true := by
  intro fuel
  induction fuel with
  | zero =>
    intro s h
    rwa [icReplaceGo_zero] at h
  | succ n ih =>
    intro s h
    cases s with
    | nil => rwa [icReplaceGo_nil] at h
    | cons c cs =>
      by_cases hm : icStarts p (c :: cs) = true
      · rw [icReplaceGo_succ_pos n hm] at h
        have h2 := icContains_dots_elim hd hne h
        exact icContains_cons (icContains_drop _ (ih _ h2))
      · rw [icReplaceGo_succ_neg n (Bool.eq_false_iff.mpr hm)] at h
        have h' : icStarts q (c :: icReplaceGo p n cs) = true ∨
            icContains q (icReplaceGo p n cs) = true := by
          simpa [icContains, Bool.or_eq_true] using h
        cases h' with
        | inl hs =>
          have hst := icStarts_icReplaceGo (n + 1) q (c :: cs) hd
            (by rw [icReplaceGo_succ_neg n (Bool.eq_false_iff.mpr hm)]; exact hs)
          exact icContains_of_icStarts hst
        | inr hc => exact icContains_cons (ih _ hc)

theorem icReplaceGo_id {p : Str} :
    ∀ (fuel : Nat) (s : Str), icContains p s = false → icReplaceGo p fuel s = s := by
  intro fuel
  induction fuel with
  | zero => intro s _; exact icReplaceGo_zero p s
  | succ n ih =>
    intro s h
    cases s with
    | nil => exact icReplaceGo_nil p _
    | cons c cs =>
      have h2 : icStarts p (c :: cs) = false ∧ icContains p cs = false := by
        simpa [icContains] using h
      rw [icReplaceGo_succ_neg n h2.1, ih cs h2.2]

theorem icReplace_not_contains {p : Str} (hd : dotFree p = true) (hne : p ≠ []) (s : Str) :
    icContains p (icReplace p s) = false := by
  have hp : p.isEmpty = false := by
    cases p with
    | nil => exact absurd rfl hne
    | cons x ps => rfl
  rw [icReplace, hp]
  simp only [Bool.false_eq_true, if_false]
  exact icContains_icReplaceGo_self hd hne s.length s le_rfl

theorem icContains_icReplace_mono {q p : Str} (hd : dotFree q = true) (hne : q ≠ [])
    {s : Str} (h : icContains q (icReplace p s) = true) : icContains q s = true := by
  rw [icReplace] at h
  by_cases hp : p.isEmpty = true
  · rwa [if_pos hp] at h
  · rw [if_neg hp] at h
    exact icContains_icReplaceGo_mono hd hne _ _ h

theorem icReplace_id {p s : Str} (h : icContains p s = false) : icReplace p s = s := by
  rw [icReplace]
  by_cases hp : p.isEmpty = true
  · rw [if_pos hp]
  · rw [if_neg hp]
    exact icReplaceGo_id _ _ h

/-! ## Lemmas about the blocked-phrase pass -/

theorem rbp_cons_pos {a : Str} {ps : List Str} {t : Str} (hc : icContains a t = true) :
    remove_blocked_phrases (a :: ps) t
      = ((remove_blocked_phrases ps (icReplace a t)).1,
         a :: (remove_blocked_phrases ps (icReplace a t)).2) := by
  simp [remove_blocked_phrases, hc]

theorem rbp_cons_neg {a : Str} {ps : List Str} {t : Str} (hc : icContains a t = false) :
    remove_blocked_phrases (a :: ps) t = remove_blocked_phrases ps t := by
  simp [remove_blocked_phrases, hc]

theorem rbp_mono {q : Str} (hd : dotFree q = true) (hne : q ≠ []) :
    ∀ (ps : List Str) (t : Str),
      icContains q (remove_blocked_phrases ps t).1 = true → icContains q t = true := by
  intro ps
  induction ps with
  | nil => intro t h; simpa [remove_blocked_phrases] using h
  | cons a ps ih =>
    intro t h
    by_cases hc : icContains a t = true
    · rw [rbp_cons_pos hc] at h
      exact icContains_icReplace_mono hd hne (ih _ h)
    · rw [rbp_cons_neg (Bool.eq_false_iff.mpr hc)] at h
      exact ih _ h

theorem rbp_not_contains : ∀ (phrases : List Str),
    (∀ q ∈ phrases, dotFree q = true ∧ q ≠ []) → ∀ {p : Str}, p ∈ phrases →
      ∀ t, icContains p (remove_blocked_phrases phrases t).1 = false := by
  intro phrases
  induction phrases with
  | nil => intro _ p hp; cases hp
  | cons a ps ih =>
    intro hall p hp t
    have hdp : dotFree p = true ∧ p ≠ [] := hall p hp
    rcases List.mem_cons.mp hp with rfl | hmem
    · by_cases hc : icContains p t = true
      · rw [rbp_cons_pos hc]
        cases hres : icContains p (remove_blocked_phrases ps (icReplace p t)).1 with
        | false => rfl
        | true =>
          have h2 := rbp_mono hdp.1 hdp.2 ps _ hres
          rw [icReplace_not_contains hdp.1 hdp.2 t] at h2
          exact Bool.noConfusion h2
      · rw [rbp_cons_neg (Bool.eq_false_iff.mpr hc)]
        cases hres : icContains p (remove_blocked_phrases ps t).1 with
        | false => rfl
        | true => exact absurd (rbp_mono hdp.1 hdp.2 ps t hres) hc
    · have hall' : ∀ q ∈ ps, dotFree q = true ∧ q ≠ [] :=
        fun q hq => hall q (List.mem_cons_of_mem _ hq)
      by_cases hc : icContains a t = true
      · rw [rbp_cons_pos hc]; exact ih hall' hmem _
      · rw [rbp_cons_neg (Bool.eq_false_iff.mpr hc)]; exact ih hall' hmem _

theorem rbp_found_nonempty : ∀ (phrases : List Str) {p : Str}, p ∈ phrases →
    ∀ t, icContains p t = true → (remove_blocked_phrases phrases t).2 ≠ [] := by
  intro phrases
  induction phrases with
  | nil => intro p hp; cases hp
  | cons a ps ih =>
    intro p hp t hct
    by_cases hc : icContains a t = true
    · rw [rbp_cons_pos hc]
      exact List.cons_ne_nil _ _
    · rcases List.mem_cons.mp hp with rfl | hmem
      · exact absurd hct hc
      · rw [rbp_cons_neg (Bool.eq_false_iff.mpr hc)]
        exact ih hmem t hct

theorem rbp_id : ∀ (phrases : List Str) (t : Str),
    (∀ q ∈ phrases, icContains q t = false) → remove_blocked_phrases phrases t = (t, []) := by
  intro phrases
  induction phrases with
  | nil => intro t _; rfl
  | cons a ps ih =>
    intro t h
    rw [rbp_cons_neg (h a (List.mem_cons_self _ _))]
    exact ih t (fun q hq => h q (List.mem_cons_of_mem _ hq))

/-! ## Decomposition lemmas for strip and truncation -/

theorem dropWhile_decomp (f : Char → Bool) (l : Str) : ∃ u, u ++ l.dropWhile f = l := by
  induction l with
  | nil => exact ⟨[], rfl⟩
  | cons c cs ih =>
    by_cases h : f c = true
    · rcases ih with ⟨u, hu⟩
      exact ⟨c :: u, by simp [List.dropWhile_cons, h, hu]⟩
    · exact ⟨[], by simp [List.dropWhile_cons, h]⟩

theorem stripBack_decomp (s : Str) : ∃ v, stripBack s ++ v = s := by
  rcases dropWhile_decomp isPyWs s.reverse with ⟨u, hu⟩
  refine ⟨u.reverse, ?_⟩
  have h2 := congrArg List.reverse hu
  simpa [stripBack, List.reverse_append] using h2

theorem pyStrip_decomp (s : Str) : ∃ u v, u ++ (pyStrip s ++ v) = s := by
  rcases dropWhile_decomp isPyWs s with ⟨u, hu⟩
  rcases stripBack_decomp (stripFront s) with ⟨v, hv⟩
  refine ⟨u, v, ?_⟩
  rw [pyStrip, hv]
  exact hu

theorem icContains_pyStrip {p s : Str} (h : icContains p (pyStrip s) = true) :
    icContains p s = true := by
  rcases pyStrip_decomp s with ⟨u, v, huv⟩
  rw [← huv]
  exact icContains_append_right u (icContains_append_left v h)

theorem pyStrip_length_le (s : Str) : (pyStrip s).length ≤ s.length := by
  rcases pyStrip_decomp s with ⟨u, v, huv⟩
  have := congrArg List.length huv
  simp only [List.length_append] at this
  omega

theorem rsplitHead_decomp (s : Str) : ∃ v, rsplitHead s ++ v = s := by
  rw [rsplitHead]
  cases hr : s.reverse.dropWhile (fun c => c != ' ') with
  | nil => exact ⟨[], by simp⟩
  | cons c t =>
    rcases dropWhile_decomp (fun c => c != ' ') s.reverse with ⟨u, hu⟩
    rw [hr] at hu
    refine ⟨c :: u.reverse, ?_⟩
    have h2 := congrArg List.reverse hu
    simpa [List.reverse_append] using h2

theorem icContains_rsplitHead {p s : Str} (h : icContains p (rsplitHead s) = true) :
    icContains p s = true := by
  rcases rsplitHead_decomp s with ⟨v, hv⟩
  rw [← hv]
  exact icContains_append_left v h

theorem rsplitHead_length_le (s : Str) : (rsplitHead s).length ≤ s.length := by
  rcases rsplitHead_decomp s with ⟨v, hv⟩
  have := congrArg List.length hv
  simp only [List.length_append] at this
  omega

theorem dropWhile_idem (f : Char → Bool) (l : Str) :
    (l.dropWhile f).dropWhile f = l.dropWhile f := by
  induction l with
  | nil => rfl
  | cons c cs ih =>
    by_cases h : f c = true
    · simp [List.dropWhile_cons, h, ih]
    · simp [List.dropWhile_cons, h]

theorem length_dropWhile_le (f : Char → Bool) (l : Str) :
    (l.dropWhile f).length ≤ l.length := by
  rcases dropWhile_decomp f l with ⟨u, hu⟩
  have := congrArg List.length hu
  simp only [List.length_append] at this
  omega

theorem dropWhile_cons_self {f : Char → Bool} {c : Char} {t : Str}
    (h : (c :: t).dropWhile f = c :: t) : f c = false := by
  by_cases hf : f c = true
  · rw [List.dropWhile_cons, if_pos hf] at h
    have hl := congrArg List.length h
    have := length_dropWhile_le f t
    simp only [List.length_cons] at hl
    omega
  · simpa using hf

theorem stripFront_stripBack {y : Str} (h : stripFront y = y) :
    stripFront (stripBack y) = stripBack y := by
  rcases stripBack_decomp y with ⟨v, hv⟩
  cases hz : stripBack y with
  | nil => rfl
  | cons c t =>
    rw [hz] at hv
    have hy : y = c :: (t ++ v) := by rw [← hv]; simp
    have hfc : isPyWs c = false := by
      apply dropWhile_cons_self (f := isPyWs) (t := t ++ v)
      rw [← hy]
      exact h
    simp [stripFront, List.dropWhile_cons, hfc]

theorem stripBack_idem (y : Str) : stripBack (stripBack y) = stripBack y := by
  rw [stripBack, stripBack, List.reverse_reverse, dropWhile_idem]

theorem pyStrip_idem (s : Str) : pyStrip (pyStrip s) = pyStrip s := by
  show stripBack (stripFront (stripBack (stripFront s))) = stripBack (stripFront s)
  have h1 : stripFront (stripFront s) = stripFront s := dropWhile_idem isPyWs s
  rw [stripFront_stripBack h1, stripBack_idem]

/-! ## Projections of `sanitize` -/

theorem sanitize_found (cfg : SafetyConfig) (t : Str) (hso : cfg.sanitize_output = true) :
    (sanitize cfg t).blocked_phrases_found
      = (remove_blocked_phrases cfg.blocked_phrases t).2 := by
  simp [sanitize, hso]

theorem sanitize_is_safe (cfg : SafetyConfig) (t : Str) :
    (sanitize cfg t).is_safe = (sanitize cfg t).blocked_phrases_found.isEmpty := rfl

theorem sanitize_text_eq (cfg : SafetyConfig) (t : Str) (hso : cfg.sanitize_output = true) :
    (sanitize cfg t).sanitized_text
      = pyStrip (if cfg.max_response_length
            < (remove_blocked_phrases cfg.blocked_phrases t).1.length
          then rsplitHead ((remove_blocked_phrases cfg.blocked_phrases t).1.take
                 cfg.max_response_length) ++ dots3
          else (remove_blocked_phrases cfg.blocked_phrases t).1) := by
  by_cases hc : cfg.max_response_length < (remove_blocked_phrases cfg.blocked_phrases t).1.length
  · simp [sanitize, hso, hc]
  · simp [sanitize, hso, hc]

theorem sanitize_warnings_eq (cfg : SafetyConfig) (t : Str) (hso : cfg.sanitize_output = true) :
    (sanitize cfg t).warnings
      = (if (remove_blocked_phrases cfg.blocked_phrases t).2.isEmpty then ([] : List SafetyWarning)
          else [.removedBlocked (remove_blocked_phrases cfg.blocked_phrases t).2.length]) ++
        (if cfg.max_response_length < (remove_blocked_phrases cfg.blocked_phrases t).1.length
          then [.truncated t.length
                 (rsplitHead ((remove_blocked_phrases cfg.blocked_phrases t).1.take
                    cfg.max_response_length) ++ dots3).length]
          else []) := by
  by_cases hc : cfg.max_response_length < (remove_blocked_phrases cfg.blocked_phrases t).1.length
  · simp [sanitize, hso, hc]
  · simp [sanitize, hso, hc]

/-- No blocked phrase of a well-formed configuration survives in the
sanitized output. -/
theorem sanitize_no_blocked {cfg : SafetyConfig} (hso : cfg.sanitize_output = true)
    (hall : ∀ q ∈ cfg.blocked_phrases, dotFree q = true ∧ q ≠ [])
    {p : Str} (hp : p ∈ cfg.blocked_phrases) (t : Str) :
    icContains p (sanitize cfg t).sanitized_text = false := by
  have hdp := hall p hp
  rw [sanitize_text_eq cfg t hso]
  cases hres : icContains p (pyStrip (if cfg.max_response_length
      < (remove_blocked_phrases cfg.blocked_phrases t).1.length
    then rsplitHead ((remove_blocked_phrases cfg.blocked_phrases t).1.take
           cfg.max_response_length) ++ dots3
    else (remove_blocked_phrases cfg.blocked_phrases t).1)) with
  | false => rfl
  | true =>
    have h1 := icContains_pyStrip hres
    by_cases hc : cfg.max_response_length
        < (remove_blocked_phrases cfg.blocked_phrases t).1.length
    · rw [if_pos hc] at h1
      have h2 := icContains_append_dots_elim hdp.1 hdp.2 h1
      have h3 := icContains_rsplitHead h2
      have h4 := icContains_take _ h3
      rw [rbp_not_contains cfg.blocked_phrases hall hp t] at h4
      exact Bool.noConfusion h4
    · rw [if_neg hc] at h1
      rw [rbp_not_contains cfg.blocked_phrases hall hp t] at h1
      exact Bool.noConfusion h1

/-! ## Exact-containment lemmas for the composed prompt -/

theorem sStarts_append {n a : Str} (b : Str) (h : sStarts n a = true) :
    sStarts n (a ++ b) = true := by
  induction n generalizing a with
  | nil => simp [sStarts]
  | cons x ns ih =>
    cases a with
    | nil => simp [sStarts] at h
    | cons c cs =>
      simp only [sStarts, Bool.and_eq_true, List.cons_append] at h ⊢
      exact ⟨h.1, ih h.2⟩

theorem sStarts_self (n : Str) : sStarts n n = true := by
  induction n with
  | nil => rfl
  | cons x ns ih => simp [sStarts, ih]

theorem sStarts_self_append (n b : Str) : sStarts n (n ++ b) = true :=
  sStarts_append b (sStarts_self n)

theorem containsB_of_sStarts {n s : Str} (h : sStarts n s = true) :
    containsB n s = true := by
  cases s with
  | nil => simpa [containsB] using h
  | cons c cs => simp [containsB, h]

theorem containsB_self_append (n b : Str) : containsB n (n ++ b) = true :=
  containsB_of_sStarts (sStarts_self_append n b)

theorem containsB_cons {n : Str} {c : Char} {cs : Str} (h : containsB n cs = true) :
    containsB n (c :: cs) = true := by
  simp [containsB, h]

theorem containsB_append_right {n b : Str} (a : Str) (h : containsB n b = true) :
    containsB n (a ++ b) = true := by
  induction a with
  | nil => simpa using h
  | cons c a' ih => exact containsB_cons ih

theorem sStarts_nil_iff (n : Str) : sStarts n [] = true ↔ n = [] := by
  cases n <;> simp [sStarts]

theorem containsB_nil_pat (s : Str) : containsB ([] : Str) s = true := by
  cases s <;> simp [containsB, sStarts]

theorem containsB_append_left {n a : Str} (b : Str) (h : containsB n a = true) :
    containsB n (a ++ b) = true := by
  induction a with
  | nil =>
    have : n = [] := (sStarts_nil_iff n).mp (by simpa [containsB] using h)
    subst this
    exact containsB_nil_pat _
  | cons c a' ih =>
    have h' : sStarts n (c :: a') = true ∨ containsB n a' = true := by
      simpa [containsB, Bool.or_eq_true] using h
    cases h' with
    | inl hs => exact containsB_of_sStarts (sStarts_append (a := c :: a') b hs)
    | inr hc => exact containsB_cons (ih hc)

/-! ## Association-list lemmas for the session dictionary -/

theorem lookup_update_self (l : List (Str × ChatSession)) (id : Str)
    (f : ChatSession → ChatSession) :
    lookupAssoc (updateAssoc l id f) id = (lookupAssoc l id).map f := by
  induction l with
  | nil => rfl
  | cons p ps ih =>
    by_cases h : p.1 = id
    · simp [updateAssoc, lookupAssoc, h] at ih ⊢
    · simp [updateAssoc, lookupAssoc, h] at ih ⊢
      exact ih

theorem lookup_none_of_not_mem (l : List (Str × ChatSession)) (id : Str)
    (h : id ∉ l.map Prod.fst) : lookupAssoc l id = none := by
  induction l with
  | nil => rfl
  | cons p ps ih =>
    simp only [List.map_cons, List.mem_cons] at h
    push_neg at h
    rw [lookupAssoc, if_neg (fun he => h.1 he.symm)]
    exact ih h.2

theorem lookup_filter_none (l : List (Str × ChatSession)) (id : Str)
    (g : Str × ChatSession → Bool) (h : id ∉ l.map Prod.fst) :
    lookupAssoc (l.filter g) id = none := by
  induction l with
  | nil => rfl
  | cons p ps ih =>
    simp only [List.map_cons, List.mem_cons] at h
    push_neg at h
    rw [List.filter_cons]
    by_cases hg : g p = true
    · rw [if_pos hg, lookupAssoc, if_neg (fun he => h.1 he.symm)]
      exact ih h.2
    · rw [if_neg hg]
      exact ih h.2

theorem lookup_filter_snd (l : List (Str × ChatSession)) (id : Str)
    (P : ChatSession → Bool) (hnd : (l.map Prod.fst).Nodup) :
    lookupAssoc (l.filter (fun p => P p.2)) id
      = (lookupAssoc l id).bind (fun s => if P s = true then some s else none) := by
  induction l with
  | nil => rfl
  | cons p ps ih =>
    have hnd1 : (p.1 :: ps.map Prod.fst).Nodup := hnd
    have hnd2 := List.nodup_cons.mp hnd1
    by_cases hid : p.1 = id
    · by_cases hP : P p.2 = true
      · simp [List.filter_cons, hP, lookupAssoc, hid]
      · simp [List.filter_cons, hP, lookupAssoc, hid,
          lookup_filter_none ps id _ (hid ▸ hnd2.1)]
    · by_cases hP : P p.2 = true
      · simp [List.filter_cons, hP, lookupAssoc, hid, ih hnd2.2]
      · simp [List.filter_cons, hP, lookupAssoc, hid, ih hnd2.2]

theorem length_filter_not_add (l : List (Str × ChatSession))
    (g : Str × ChatSession → Bool) :
    (l.filter (fun x => !(g x))).length + (l.filter g).length = l.length := by
  induction l with
  | nil => rfl
  | cons p ps ih =>
    by_cases h : g p = true <;>
      simp [List.filter_cons, h, List.length_cons] <;> omega

/-! ## Claim theorems -/

/-- C1: in every session the first turn is the stored system prompt: it is
established at creation, preserved by message appends, and restored by
reset, which truncates to exactly that one turn while keeping the pathology
binding; at the store level, resetting a stored session leaves exactly the
reset session retrievable. -/
theorem C1_system_prompt_invariant :
    (∀ chat_id system_prompt pathology now,
        (mkChatSession chat_id system_prompt pathology now).messages
            = [{ role := roleSystem, content := system_prompt }]
      ∧ (mkChatSession chat_id system_prompt pathology now).system_prompt = system_prompt
      ∧ (mkChatSession chat_id system_prompt pathology now).pathology = pathology)
  ∧ (∀ (s : ChatSession) (role content : Str) (now : Nat), firstTurnIsSystem s →
        firstTurnIsSystem (s.add_message role content now)
      ∧ (s.add_message role content now).system_prompt = s.system_prompt
      ∧ (s.add_message role content now).pathology = s.pathology)
  ∧ (∀ (s : ChatSession) (now : Nat),
        (s.reset now).messages = [{ role := roleSystem, content := s.system_prompt }]
      ∧ (s.reset now).system_prompt = s.system_prompt
      ∧ (s.reset now).pathology = s.pathology
      ∧ firstTurnIsSystem (s.reset now))
  ∧ (∀ (m : ChatManager) (chat_id : Str) (now : Nat) (s : ChatSession),
        m.get_session chat_id = some s →
        (m.reset_chat chat_id now).1.get_session chat_id = some (s.reset now)) := by
  refine ⟨?_, ?_, ?_, ?_⟩
  · intro chat_id system_prompt pathology now
    exact ⟨rfl, rfl, rfl⟩
  · intro s role content now h
    refine ⟨?_, rfl, rfl⟩
    rw [firstTurnIsSystem] at h ⊢
    rw [ChatSession.add_message]
    cases hm : s.messages with
    | nil => rw [hm] at h; exact Option.noConfusion h
    | cons a t =>
      rw [hm] at h
      simpa using h
  · intro s now
    exact ⟨rfl, rfl, rfl, rfl⟩
  · intro m chat_id now s h
    have hg : lookupAssoc m.sessions chat_id = some s := h
    simp only [ChatManager.reset_chat, h]
    simp only [ChatManager.get_session]
    rw [lookup_update_self, hg]
    rfl

/-- Witness for C1 on a concrete store: resetting a two-turn session yields
exactly the original system-prompt turn with the pathology preserved. -/
theorem C1_system_prompt_invariant_witness :
    (c1Mgr.reset_chat (("c1").data) 2).1.get_session (("c1").data) = some (c1Sess.reset 2)
  ∧ (c1Sess.reset 2).messages = [{ role := roleSystem, content := (("SYS PROMPT").data) }]
  ∧ (c1Sess.reset 2).pathology = (("dental_caries").data) := by
  refine ⟨C1_system_prompt_invariant.2.2.2 c1Mgr (("c1").data) 2 c1Sess rfl, ?_, ?_⟩
  · exact (C1_system_prompt_invariant.2.2.1 c1Sess 2).1
  · exact (C1_system_prompt_invariant.2.2.1 c1Sess 2).2.2.1

/-- C2: when the generation backend raises during a send-turn call on an
existing session, the appended user turn is rolled back — the stored turn
list afterwards equals the one before the call — and the surfaced outcome
is a generation failure, never a reply. -/
theorem C2_rollback_on_generation_failure (m : ChatManager) (chat_id message : Str)
    (engine : List Msg → Except Str Str) (now : Nat) (s : ChatSession) (err : Str)
    (hm : m.get_session chat_id = some s)
    (he : engine (s.messages ++ [{ role := roleUser, content := message }]) = .error err) :
    ((send_message m chat_id message engine now).1.get_session chat_id).map
        (fun u => u.messages) = some s.messages
  ∧ (send_message m chat_id message engine now).2
      = .genError (generationErrorText ++ err) := by
  have hg : lookupAssoc m.sessions chat_id = some s := hm
  have hmsgs : ((m.add_user_message chat_id message now).1.get_messages chat_id).getD []
      = s.messages ++ [{ role := roleUser, content := message }] := by
    simp only [ChatManager.add_user_message, hm]
    simp only [ChatManager.get_messages, ChatManager.get_session]
    rw [lookup_update_self, hg]
    rfl
  have hsend : send_message m chat_id message engine now
      = (rollbackUser (m.add_user_message chat_id message now).1 chat_id,
         .genError (generationErrorText ++ err)) := by
    simp only [send_message, hm]
    rw [hmsgs, he]
  rw [hsend]
  refine ⟨?_, rfl⟩
  simp only [rollbackUser, ChatManager.add_user_message, ChatManager.get_session, hg]
  rw [lookup_update_self, lookup_update_self, hg]
  simp [ChatSession.add_message, List.getLast?_concat, List.dropLast_concat]

/-- Witness for C2: a backend that always raises leaves the one-session
store with its original single turn and surfaces a generation failure. -/
theorem C2_rollback_on_generation_failure_witness :
    ((send_message c2Mgr (("c2").data) (("hi").data) c2Engine 5).1.get_session
        (("c2").data)).map (fun u => u.messages) = some c2Sess.messages
  ∧ (send_message c2Mgr (("c2").data) (("hi").data) c2Engine 5).2
      = .genError (generationErrorText ++ (("boom").data)) := by
  exact C2_rollback_on_generation_failure c2Mgr (("c2").data) (("hi").data) c2Engine 5
    c2Sess (("boom").data) rfl rfl

/-- C8: the expiry sweep removes exactly the sessions whose last update is
older than `now` minus the threshold, returns every other stored session
unchanged, and reports the number of sessions removed. -/
theorem C8_cleanup_expired_exact (m : ChatManager) (hours now : Nat)
    (hnd : (m.sessions.map Prod.fst).Nodup) :
    (∀ chat_id, (m.cleanup_expired hours now).1.get_session chat_id
        = (m.get_session chat_id).bind
            (fun s => if s.updated_at + hours * 3600 < now then none else some s))
  ∧ (m.cleanup_expired hours now).1.sessions.length + (m.cleanup_expired hours now).2
      = m.sessions.length := by
  constructor
  · intro chat_id
    show lookupAssoc (m.sessions.filter _) chat_id = _
    rw [lookup_filter_snd m.sessions chat_id
      (fun s => !(s.is_expired hours now)) hnd]
    rw [ChatManager.get_session]
    cases lookupAssoc m.sessions chat_id with
    | none => rfl
    | some s =>
      by_cases hexp : s.updated_at + hours * 3600 < now
      · have : s.is_expired hours now = true := by
          rw [ChatSession.is_expired]; exact decide_eq_true hexp
        simp [this, hexp]
      · have : s.is_expired hours now = false := by
          rw [ChatSession.is_expired]; exact decide_eq_false hexp
        simp [this, hexp]
  · exact length_filter_not_add m.sessions (fun p => p.2.is_expired hours now)

/-- Witness for C8 on a concrete store: the stale session is removed, the
fresh one is untouched, and the count balances. -/
theorem C8_cleanup_expired_exact_witness :
    (c8Mgr.cleanup_expired 24 100000).1.get_session (("k2").data) = none
  ∧ (c8Mgr.cleanup_expired 24 100000).1.get_session (("k1").data) = some c8SessFresh
  ∧ (c8Mgr.cleanup_expired 24 100000).1.sessions.length
      + (c8Mgr.cleanup_expired 24 100000).2 = c8Mgr.sessions.length := by
  have h := C8_cleanup_expired_exact c8Mgr 24 100000 (by decide)
  refine ⟨?_, ?_, h.2⟩
  · rw [h.1 (("k2").data)]; decide
  · rw [h.1 (("k1").data)]; decide

/-- C10: the statistics operations are total: a role with no messages
yields a mean length of zero rather than a division error, and global
statistics on an empty store return the all-zero aggregate with an empty
pathology breakdown. -/
theorem C10_statistics_total :
    (∀ s : ChatSession, s.get_user_messages = [] →
        (s.get_statistics).avg_user_length = 0)
  ∧ (∀ s : ChatSession, s.get_assistant_messages = [] →
        (s.get_statistics).avg_assistant_length = 0)
  ∧ (∀ m : ChatManager, m.sessions = [] →
      m.get_global_statistics =
        { total_sessions := 0, total_messages := 0, pathology_distribution := [],
          avg_messages_per_session := 0 }) := by
  refine ⟨?_, ?_, ?_⟩
  · intro s h
    show avgLen s.get_user_messages = 0
    rw [h, avgLen]
    simp
  · intro s h
    show avgLen s.get_assistant_messages = 0
    rw [h, avgLen]
    simp
  · intro m h
    rw [ChatManager.get_global_statistics, h]
    rfl

/-- Witness for C10: a fresh session has no user messages and mean user
length zero; the empty store yields the zero aggregate. -/
theorem C10_statistics_total_witness :
    (c10Sess.get_statistics).avg_user_length = 0
  ∧ c10Mgr.get_global_statistics =
      { total_sessions := 0, total_messages := 0, pathology_distribution := [],
        avg_messages_per_session := 0 } := by
  refine ⟨C10_statistics_total.1 c10Sess (by decide), C10_statistics_total.2.2 c10Mgr rfl⟩

/-- C4: constructing generation parameters with every value in its
validated range succeeds and leaves each value unchanged (no clamping);
any out-of-range value makes construction fail with an error. -/
theorem C4_parameter_validation (mnt : Int) (t p r : ℚ) :
    ((MIN_TOKENS ≤ mnt ∧ mnt ≤ MAX_TOKENS) ∧
     (MIN_TEMPERATURE ≤ t ∧ t ≤ MAX_TEMPERATURE) ∧
     (MIN_TOP_P ≤ p ∧ p ≤ MAX_TOP_P) ∧
     (MIN_REPETITION_PENALTY ≤ r ∧ r ≤ MAX_REPETITION_PENALTY) →
      mkGenerationConfig mnt t p r = .ok ⟨mnt, t, p, r⟩)
  ∧ (¬ ((MIN_TOKENS ≤ mnt ∧ mnt ≤ MAX_TOKENS) ∧
        (MIN_TEMPERATURE ≤ t ∧ t ≤ MAX_TEMPERATURE) ∧
        (MIN_TOP_P ≤ p ∧ p ≤ MAX_TOP_P) ∧
        (MIN_REPETITION_PENALTY ≤ r ∧ r ≤ MAX_REPETITION_PENALTY)) →
      ∃ e, mkGenerationConfig mnt t p r = .error e)
  ∧ (∀ c, mkGenerationConfig mnt t p r = .ok c → c = ⟨mnt, t, p, r⟩) := by
  rw [mkGenerationConfig, GenerationConfig.validate]
  by_cases h1 : MIN_TOKENS ≤ mnt ∧ mnt ≤ MAX_TOKENS
  · by_cases h2 : MIN_TEMPERATURE ≤ t ∧ t ≤ MAX_TEMPERATURE
    · by_cases h3 : MIN_TOP_P ≤ p ∧ p ≤ MAX_TOP_P
      · by_cases h4 : MIN_REPETITION_PENALTY ≤ r ∧ r ≤ MAX_REPETITION_PENALTY
        · refine ⟨fun _ => ?_, fun hc => absurd ⟨h1, h2, h3, h4⟩ hc, fun c hc => ?_⟩
          · simp [h1, h2, h3, h4, Except.map]
          · simp [h1, h2, h3, h4, Except.map] at hc
            exact hc.symm
        · refine ⟨fun hall => absurd hall.2.2.2 h4, fun _ => ⟨.repPenalty, ?_⟩, ?_⟩
          · simp [h1, h2, h3, h4, Except.map]
          · intro c hc
            simp [h1, h2, h3, h4, Except.map] at hc
      · refine ⟨fun hall => absurd hall.2.2.1 h3, fun _ => ⟨.topP, ?_⟩, ?_⟩
        · simp [h1, h2, h3, Except.map]
        · intro c hc
          simp [h1, h2, h3, Except.map] at hc
    · refine ⟨fun hall => absurd hall.2.1 h2, fun _ => ⟨.temperature, ?_⟩, ?_⟩
      · simp [h1, h2, Except.map]
      · intro c hc
        simp [h1, h2, Except.map] at hc
  · refine ⟨fun hall => absurd hall.1 h1, fun _ => ⟨.tokens, ?_⟩, ?_⟩
    · simp [h1, Except.map]
    · intro c hc
      simp [h1, Except.map] at hc

/-- Witness for C4: the conservative preset values construct unchanged,
and an oversized token count is rejected. -/
theorem C4_parameter_validation_witness :
    c4WitnessCfg = .ok ⟨80, 3 / 10, 85 / 100, 115 / 100⟩
  ∧ ∃ e, mkGenerationConfig 1000 1 1 1 = .error e := by
  constructor
  · exact (C4_parameter_validation 80 (3 / 10) (85 / 100) (115 / 100)).1
      (by norm_num [MIN_TOKENS, MAX_TOKENS, MIN_TEMPERATURE, MAX_TEMPERATURE,
        MIN_TOP_P, MAX_TOP_P, MIN_REPETITION_PENALTY, MAX_REPETITION_PENALTY])
  · exact (C4_parameter_validation 1000 1 1 1).2.1
      (by norm_num [MIN_TOKENS, MAX_TOKENS])

/-- C5 (amended): for every pathology label and profile, the composed
prompt contains the label, the markers `PATIENT`, `SAFETY RULES`, and
`SYMPTOMS`, and each profile field's rendered value on its labeled line,
where a missing field renders `Not specified` — except the free-text extra
field, whose missing value renders `None`. -/
theorem C5_prompt_contents (lbl : Str) (p : PatientProfile) :
    containsB lbl (build_patient_prompt lbl p) = true
  ∧ containsB ((("PATIENT").data)) (build_patient_prompt lbl p) = true
  ∧ containsB ((("SAFETY RULES").data)) (build_patient_prompt lbl p) = true
  ∧ containsB ((("SYMPTOMS").data)) (build_patient_prompt lbl p) = true
  ∧ containsB (lblChief ++ p.chief_complaint.getD notSpecified)
      (build_patient_prompt lbl p) = true
  ∧ containsB (lblPain ++ p.pain.getD notSpecified) (build_patient_prompt lbl p) = true
  ∧ containsB (lblLocation ++ p.location.getD notSpecified)
      (build_patient_prompt lbl p) = true
  ∧ containsB (lblDuration ++ p.duration.getD notSpecified)
      (build_patient_prompt lbl p) = true
  ∧ containsB (lblAppearance ++ p.appearance.getD notSpecified)
      (build_patient_prompt lbl p) = true
  ∧ containsB (lblHistory ++ p.history.getD notSpecified)
      (build_patient_prompt lbl p) = true
  ∧ containsB (lblExtra ++ p.extra.getD ((("None").data)))
      (build_patient_prompt lbl p) = true := by
  rw [build_patient_prompt]
  simp only [List.append_assoc]
  refine ⟨?_, ?_, ?_, ?_, ?_, ?_, ?_, ?_, ?_, ?_, ?_⟩
  · exact containsB_append_right _ (containsB_self_append _ _)
  · exact containsB_append_left _ (by decide)
  · iterate 18 apply containsB_append_right
    exact containsB_append_left _ (by decide)
  · iterate 2 apply containsB_append_right
    exact containsB_append_left _ (by decide)
  · iterate 3 apply containsB_append_right
    rw [← List.append_assoc lblChief]
    exact containsB_self_append _ _
  · iterate 5 apply containsB_append_right
    rw [← List.append_assoc lblPain]
    exact containsB_self_append _ _
  · iterate 7 apply containsB_append_right
    rw [← List.append_assoc lblLocation]
    exact containsB_self_append _ _
  · iterate 9 apply containsB_append_right
    rw [← List.append_assoc lblDuration]
    exact containsB_self_append _ _
  · iterate 11 apply containsB_append_right
    rw [← List.append_assoc lblAppearance]
    exact containsB_self_append _ _
  · iterate 13 apply containsB_append_right
    rw [← List.append_assoc lblHistory]
    exact containsB_self_append _ _
  · iterate 15 apply containsB_append_right
    rw [← List.append_assoc lblExtra]
    exact containsB_self_append _ _

set_option maxRecDepth 40000 in
/-- Counterexample for C5 as stated: with the extra field missing, the
prompt renders `None` on the Additional Information line, not the claimed
`Not specified` placeholder. -/
theorem C5_prompt_contents_counterexample :
    containsB ((("- Additional Information: Not specified").data))
      (build_patient_prompt ((("X").data)) c5Profile) = false
  ∧ containsB ((("- Additional Information: None").data))
      (build_patient_prompt ((("X").data)) c5Profile) = true := by
  constructor
  · decide
  · decide

/-- C3 (amended): for every input containing a configured blocked phrase
(case-insensitively), the sanitized output contains no blocked phrase, the
verdict's found list is nonempty and the safety flag is false; the specific
phrase can be absent from the found list when an earlier-listed phrase's
replacement already removed its occurrence.  The safety flag is true iff
zero blocked phrases were found, so truncation alone never flips it. -/
theorem C3_blocked_phrase_handling :
    (∀ (t : Str), ∀ p ∈ DEFAULT_SAFETY_CONFIG.blocked_phrases, icContains p t = true →
        icContains p ((sanitize DEFAULT_SAFETY_CONFIG t).sanitized_text) = false
      ∧ (sanitize DEFAULT_SAFETY_CONFIG t).blocked_phrases_found ≠ []
      ∧ (sanitize DEFAULT_SAFETY_CONFIG t).is_safe = false)
  ∧ (∀ t : Str, (sanitize DEFAULT_SAFETY_CONFIG t).is_safe
      = (sanitize DEFAULT_SAFETY_CONFIG t).blocked_phrases_found.isEmpty) := by
  have hall : ∀ q ∈ DEFAULT_SAFETY_CONFIG.blocked_phrases, dotFree q = true ∧ q ≠ [] := by
    decide
  constructor
  · intro t p hp hc
    have hso : DEFAULT_SAFETY_CONFIG.sanitize_output = true := rfl
    have hfound : (sanitize DEFAULT_SAFETY_CONFIG t).blocked_phrases_found ≠ [] := by
      rw [sanitize_found _ _ hso]
      exact rbp_found_nonempty _ hp t hc
    refine ⟨sanitize_no_blocked hso hall hp t, hfound, ?_⟩
    rw [sanitize_is_safe]
    cases hfe : (sanitize DEFAULT_SAFETY_CONFIG t).blocked_phrases_found with
    | nil => exact absurd hfe hfound
    | cons a l => rfl
  · intro t
    exact sanitize_is_safe _ _

/-- Counterexample for C3 as stated: the input contains the blocked phrase
`I recommend you take`, yet that phrase is missing from the verdict's found
list because the earlier phrase `Take this medication` overlapped it and
was excised first. -/
theorem C3_blocked_phrase_handling_counterexample :
    icContains ((("I recommend you take").data)) c3Text = true
  ∧ (("I recommend you take").data) ∈ DEFAULT_SAFETY_CONFIG.blocked_phrases
  ∧ (("I recommend you take").data)
      ∉ (sanitize DEFAULT_SAFETY_CONFIG c3Text).blocked_phrases_found := by
  refine ⟨by decide, by decide, by decide⟩

/-- Witness for C3 on a concrete input containing `You have`. -/
theorem C3_blocked_phrase_handling_witness :
    icContains c3WitnessPhrase c3Witness = true
  ∧ icContains c3WitnessPhrase
      ((sanitize DEFAULT_SAFETY_CONFIG c3Witness).sanitized_text) = false
  ∧ (sanitize DEFAULT_SAFETY_CONFIG c3Witness).is_safe = false := by
  have h := C3_blocked_phrase_handling.1 c3Witness c3WitnessPhrase (by decide) (by decide)
  exact ⟨by decide, h.1, h.2.2⟩

/-- C6 (amended): sanitize is idempotent on already-clean text whose first
sanitized output is within the configured maximum length; without that
proviso a truncated output can be truncated again differently. -/
theorem C6_sanitize_idempotent_on_clean (t : Str)
    (_hclean : ∀ p ∈ DEFAULT_SAFETY_CONFIG.blocked_phrases, icContains p t = false)
    (hlen : (sanitize DEFAULT_SAFETY_CONFIG t).sanitized_text.length
        ≤ DEFAULT_SAFETY_CONFIG.max_response_length) :
    (sanitize DEFAULT_SAFETY_CONFIG
        ((sanitize DEFAULT_SAFETY_CONFIG t).sanitized_text)).sanitized_text
      = (sanitize DEFAULT_SAFETY_CONFIG t).sanitized_text := by
  have hall : ∀ q ∈ DEFAULT_SAFETY_CONFIG.blocked_phrases, dotFree q = true ∧ q ≠ [] := by
    decide
  have hso : DEFAULT_SAFETY_CONFIG.sanitize_output = true := rfl
  have hs1 : ∀ p ∈ DEFAULT_SAFETY_CONFIG.blocked_phrases,
      icContains p ((sanitize DEFAULT_SAFETY_CONFIG t).sanitized_text) = false := by
    intro p hp
    exact sanitize_no_blocked hso hall hp t
  have hfold := rbp_id DEFAULT_SAFETY_CONFIG.blocked_phrases
    ((sanitize DEFAULT_SAFETY_CONFIG t).sanitized_text) hs1
  have hstrip : pyStrip ((sanitize DEFAULT_SAFETY_CONFIG t).sanitized_text)
      = (sanitize DEFAULT_SAFETY_CONFIG t).sanitized_text := by
    rw [sanitize_text_eq _ _ hso]
    exact pyStrip_idem _
  rw [sanitize_text_eq _ ((sanitize DEFAULT_SAFETY_CONFIG t).sanitized_text) hso, hfold]
  rw [if_neg (Nat.not_lt.mpr hlen)]
  exact hstrip

/-- Witness for C6 on concrete clean short text. -/
theorem C6_sanitize_idempotent_on_clean_witness :
    (sanitize DEFAULT_SAFETY_CONFIG
        ((sanitize DEFAULT_SAFETY_CONFIG c6Witness).sanitized_text)).sanitized_text
      = (sanitize DEFAULT_SAFETY_CONFIG c6Witness).sanitized_text := by
  exact C6_sanitize_idempotent_on_clean c6Witness (by decide) (by decide)

set_option maxRecDepth 200000 in
/-- Counterexample for C6 as stated: a clean 1005-character text whose
sanitized output (1002 characters) is truncated again — and differently —
by a second sanitize, so plain idempotence on clean text fails. -/
theorem C6_sanitize_idempotent_on_clean_counterexample :
    (∀ p ∈ DEFAULT_SAFETY_CONFIG.blocked_phrases, icContains p c6Text = false)
  ∧ (sanitize DEFAULT_SAFETY_CONFIG
        ((sanitize DEFAULT_SAFETY_CONFIG c6Text).sanitized_text)).sanitized_text
      ≠ (sanitize DEFAULT_SAFETY_CONFIG c6Text).sanitized_text := by
  constructor
  · decide
  · decide

/-- C7: among responses with more than 10 words of which fewer than 30%
are distinct, validate reports the excessive-repetition issue, and its
validity flag is true exactly when the issue list is empty (the text is
never altered: validate returns only the flag and the issues). -/
theorem C7_validate_repetition (r : Str) :
    (10 < (pySplit (r.map Char.toLower)).length →
      (pySplit (r.map Char.toLower)).dedup.length * 10
          < (pySplit (r.map Char.toLower)).length * 3 →
      ("Response contains excessive repetition" : String) ∈ (validate r).2)
  ∧ ((validate r).1 = true ↔ (validate r).2 = []) := by
  constructor
  · intro h1 h2
    have hcond : 10 < (pySplit (r.map Char.toLower)).length ∧
        (pySplit (r.map Char.toLower)).dedup.length * 10
          < (pySplit (r.map Char.toLower)).length * 3 := ⟨h1, h2⟩
    simp only [validate]
    rw [if_pos hcond]
    exact List.mem_append_right _ (List.mem_singleton_self _)
  · have hfl : (validate r).1 = (validate r).2.isEmpty := rfl
    rw [hfl]
    exact List.isEmpty_iff

/-- Witness for C7: twelve repetitions of one word trigger the repetition
issue and invalidate the response. -/
theorem C7_validate_repetition_witness :
    10 < (pySplit (c7Witness.map Char.toLower)).length
  ∧ ("Response contains excessive repetition" : String) ∈ (validate c7Witness).2
  ∧ (validate c7Witness).1 = false := by
  refine ⟨by decide, (C7_validate_repetition c7Witness).1 (by decide) (by decide), by decide⟩

/-- C9 (amended): the sanitized output is at most the configured maximum
plus the three-character ellipsis; when the post-removal text exceeds the
maximum it is cut back to the last space within the first maximum
characters (or kept whole when spaceless), the ellipsis is appended — so
the result can exceed the maximum by up to three characters — and a
truncation warning is recorded; text at or under the maximum is not
truncated. -/
theorem C9_truncation_bound (t : Str) :
    (sanitize DEFAULT_SAFETY_CONFIG t).sanitized_text.length
        ≤ DEFAULT_SAFETY_CONFIG.max_response_length + 3
  ∧ (DEFAULT_SAFETY_CONFIG.max_response_length
        < (remove_blocked_phrases DEFAULT_SAFETY_CONFIG.blocked_phrases t).1.length →
      (sanitize DEFAULT_SAFETY_CONFIG t).sanitized_text
          = pyStrip (rsplitHead
              ((remove_blocked_phrases DEFAULT_SAFETY_CONFIG.blocked_phrases t).1.take
                DEFAULT_SAFETY_CONFIG.max_response_length) ++ dots3)
        ∧ SafetyWarning.truncated t.length
            (rsplitHead ((remove_blocked_phrases DEFAULT_SAFETY_CONFIG.blocked_phrases t).1.take
              DEFAULT_SAFETY_CONFIG.max_response_length) ++ dots3).length
            ∈ (sanitize DEFAULT_SAFETY_CONFIG t).warnings)
  ∧ ((remove_blocked_phrases DEFAULT_SAFETY_CONFIG.blocked_phrases t).1.length
        ≤ DEFAULT_SAFETY_CONFIG.max_response_length →
      (sanitize DEFAULT_SAFETY_CONFIG t).sanitized_text
          = pyStrip (remove_blocked_phrases DEFAULT_SAFETY_CONFIG.blocked_phrases t).1) := by
  have hso : DEFAULT_SAFETY_CONFIG.sanitize_output = true := rfl
  refine ⟨?_, ?_, ?_⟩
  · rw [sanitize_text_eq _ _ hso]
    by_cases hc : DEFAULT_SAFETY_CONFIG.max_response_length
        < (remove_blocked_phrases DEFAULT_SAFETY_CONFIG.blocked_phrases t).1.length
    · rw [if_pos hc]
      have b1 := pyStrip_length_le (rsplitHead
        ((remove_blocked_phrases DEFAULT_SAFETY_CONFIG.blocked_phrases t).1.take
          DEFAULT_SAFETY_CONFIG.max_response_length) ++ dots3)
      rw [List.length_append] at b1
      have b2 := rsplitHead_length_le
        ((remove_blocked_phrases DEFAULT_SAFETY_CONFIG.blocked_phrases t).1.take
          DEFAULT_SAFETY_CONFIG.max_response_length)
      have b3 := List.length_take_le DEFAULT_SAFETY_CONFIG.max_response_length
        (remove_blocked_phrases DEFAULT_SAFETY_CONFIG.blocked_phrases t).1
      have hd3 : dots3.length = 3 := rfl
      omega
    · rw [if_neg hc]
      have b1 := pyStrip_length_le
        (remove_blocked_phrases DEFAULT_SAFETY_CONFIG.blocked_phrases t).1
      omega
  · intro hc
    constructor
    · rw [sanitize_text_eq _ _ hso, if_pos hc]
    · rw [sanitize_warnings_eq _ _ hso, if_pos hc]
      exact List.mem_append_right _ (List.mem_singleton_self _)
  · intro hle
    rw [sanitize_text_eq _ _ hso, if_neg (Nat.not_lt.mpr hle)]

set_option maxRecDepth 200000 in
/-- Witness for C9: a 1002-character input with one space is truncated at
the space, the output stays within maximum plus ellipsis, and the
truncation warning is recorded. -/
theorem C9_truncation_bound_witness :
    DEFAULT_SAFETY_CONFIG.max_response_length
        < (remove_blocked_phrases DEFAULT_SAFETY_CONFIG.blocked_phrases c9Witness).1.length
  ∧ (sanitize DEFAULT_SAFETY_CONFIG c9Witness).sanitized_text.length
      ≤ DEFAULT_SAFETY_CONFIG.max_response_length + 3
  ∧ SafetyWarning.truncated c9Witness.length
      (rsplitHead ((remove_blocked_phrases DEFAULT_SAFETY_CONFIG.blocked_phrases c9Witness).1.take
        DEFAULT_SAFETY_CONFIG.max_response_length) ++ dots3).length
      ∈ (sanitize DEFAULT_SAFETY_CONFIG c9Witness).warnings := by
  refine ⟨by decide, (C9_truncation_bound c9Witness).1,
    ((C9_truncation_bound c9Witness).2.1 (by decide)).2⟩

set_option maxRecDepth 200000 in
/-- Counterexample for C9 as stated: 1001 non-space characters sanitize to
1003 characters, exceeding the configured maximum response length. -/
theorem C9_truncation_bound_counterexample :
    DEFAULT_SAFETY_CONFIG.max_response_length
      < (sanitize DEFAULT_SAFETY_CONFIG c9Text).sanitized_text.length := by
  decide

end ChatBot
